import Mathlib

/-!
Verification of the Billing_System repository (files `tStyle.py`, `Biller.py`)
against its natural-language specification.

Shallow embedding conventions:
* Python `float` values are modelled as exact rationals (`ℚ`); the claims under
  study concern sign tests, comparisons and additive arithmetic, none of which
  depend on binary rounding.
* File-system side effects are modelled explicitly: each potentially failing
  write/rename carries an exogenous `Bool` flag (`ioOk`, `saveOk`, `renameOk`)
  that says whether the underlying OS operation succeeds, and functions return
  the new file state where a claim needs it.
* Python's `float(x)` coercion is modelled by `pyFloat : PyVal → Option ℚ`,
  where `none` corresponds to raising `ValueError`/`TypeError`.
* Functions that catch all exceptions and return a value are embedded as total
  functions; a caught-and-converted exception shows up as an error result.
-/

namespace Billing

/-- Python `str.strip()`: remove leading and trailing whitespace. (Defined
over the character list so that it evaluates by kernel reduction; Python also
strips some further Unicode whitespace, which no claim exercises.) -/
def pyStrip (s : String) : String :=
  (((s.data.dropWhile Char.isWhitespace).reverse.dropWhile Char.isWhitespace).reverse).asString

/-- Numeric value of a decimal digit character (`'0'` ↦ 0, …). Models how a
digit character contributes to the value Python's `float()`/`int()` parse. -/
def digitVal (c : Char) : Nat := c.toNat - 48

/-- Decimal value of a big-endian list of digit characters. -/
def digitsVal (cs : List Char) : Nat := cs.foldl (fun acc c => 10 * acc + digitVal c) 0

/-- Parse an unsigned decimal literal (`"50"`, `"3.14"`, `"1."`, `".5"`).
Models the core of Python `float()` on the plain decimal strings this program
reads and writes (exponent forms, `inf`/`nan` and underscores are outside the
inputs exercised by the spec's claims). -/
def parseUnsignedDecimal (cs : List Char) : Option ℚ :=
  let intPart := cs.takeWhile Char.isDigit
  let rest := cs.dropWhile Char.isDigit
  match rest with
  | [] => if intPart.isEmpty then none else some ((digitsVal intPart : Nat) : ℚ)
  | '.' :: frac =>
    if frac.all Char.isDigit && !(intPart.isEmpty && frac.isEmpty) then
      some (((digitsVal intPart : Nat) : ℚ) + ((digitsVal frac : Nat) : ℚ) / (10 : ℚ) ^ frac.length)
    else none
  | _ => none

/-- Python `float(s)` on an already-stripped string: optional sign followed by
an unsigned decimal literal; `none` models a raised `ValueError`. -/
def pyFloatOfString (s : String) : Option ℚ :=
  match s.toList with
  | '-' :: rest => (parseUnsignedDecimal rest).map (fun q => -q)
  | '+' :: rest => parseUnsignedDecimal rest
  | cs => parseUnsignedDecimal cs

/-- A Python value passed as the `amount` argument of `deposit`/`withdraw`:
a number, a string (coerced through `float()`), or a value `float()` rejects
(e.g. `None`, a list), which raises `TypeError`. -/
inductive PyVal where
  | num (q : ℚ)
  | str (s : String)
  | nonCoercible
deriving DecidableEq

/-- Python's `float(amount)` coercion: numbers pass through, strings are
stripped and parsed, anything else raises (modelled as `none`). -/
def pyFloat : PyVal → Option ℚ
  | .num q => some q
  | .str s => pyFloatOfString (pyStrip s)
  | .nonCoercible => none

/-- Decimal digit character used when rendering an id with `str(...)`. -/
def digitChar (d : Nat) : Char := Char.ofNat (48 + d)

/-- Little-endian decimal digits of `n`, computed with explicit fuel so that
the definition is structurally recursive (fuel `n` always suffices). -/
def natDigitsRev : Nat → Nat → List Nat
  | 0, _ => []
  | _ + 1, 0 => []
  | fuel + 1, n + 1 => (n + 1) % 10 :: natDigitsRev fuel ((n + 1) / 10)

/-- Python `str(n)` for a non-negative integer `n`: its decimal numeral. -/
def str_of_nat (n : Nat) : String :=
  if n = 0 then "0" else (((natDigitsRev n n).map digitChar).reverse).asString

/-- Value of a little-endian digit list; used to prove `str_of_nat` injective. -/
def valLE : List Nat → Nat
  | [] => 0
  | d :: ds => d + 10 * valLE ds

/-- Decode the decimal numeral produced by `str_of_nat`; a left inverse. -/
def strDecode (s : String) : Nat := valLE ((s.data.map digitVal).reverse)

/-!
## Persistent Store (`FileManager`, `tStyle.py`)
-/

/-- `FileManager.save_balance_to_file(account_id, balance)` as a success flag:
a negative balance is rejected without writing; otherwise the backup-then-write
sequence succeeds exactly when the underlying file write does (`ioOk`). -/
def save_balance_to_file (ioOk : Bool) (balance : ℚ) : Bool :=
  if balance < 0 then false else ioOk

/-- On-disk state of one account's balance file: absent, holding arbitrary
text (`raw`), or holding `str(float(v))` as last written by
`save_balance_to_file` (`stored v`; reading such a file parses back to `v`,
and `v ≥ 0` whenever the program itself wrote it). -/
inductive BalFile where
  | absent
  | raw (content : String)
  | stored (v : ℚ)
deriving DecidableEq

/-- `FileManager.load_balance_from_file(account_id, default_balance)`.
`readOk` models whether opening/reading an existing file succeeds (a failure
is caught and yields the default with no write); `saveOk` models the file
write inside the `save_balance_to_file` call made when the file is absent or
empty. Returns the loaded balance and the resulting file state. -/
def load_balance_from_file (readOk saveOk : Bool) (fs : BalFile) (default_balance : ℚ) :
    ℚ × BalFile :=
  match fs with
  | .absent =>
    if save_balance_to_file saveOk default_balance then
      (default_balance, .stored default_balance)
    else (default_balance, .absent)
  | .raw content =>
    if readOk = false then (default_balance, fs)
    else if (pyStrip content) = "" then
      if save_balance_to_file saveOk default_balance then
        (default_balance, .stored default_balance)
      else (default_balance, fs)
    else
      match pyFloatOfString (pyStrip content) with
      | some b => if 0 ≤ b then (b, fs) else (default_balance, fs)
      | none => (default_balance, fs)
  | .stored v =>
    if readOk = false then (default_balance, fs)
    else if 0 ≤ v then (v, fs) else (default_balance, fs)

/-- One record of the account registry (`account_info` in
`AccountManager.create_new_account`). -/
structure AccountInfo where
  id : Nat
  name : String
  created : String
  balance : ℚ
deriving DecidableEq

/-- The in-memory registry: a finite mapping from decimal-string account ids
to records, in insertion order (a Python `dict`). -/
abbrev Registry := List (String × AccountInfo)

/-- The key set of a registry. -/
def registryKeys (accounts : Registry) : List String := accounts.map Prod.fst

/-- On-disk state of the registry file for `FileManager.load_json_file`. -/
inductive RegFile where
  | absent
  | file (content : String) (readOk : Bool)
deriving DecidableEq

/-- File-system effect performed by `load_json_file`. -/
inductive FsEffect where
  | noEffect
  | renamedTo (backupPath : String)
deriving DecidableEq

/-- `FileManager.load_json_file(file_path)`. `parse` is the `json.loads`
oracle (`none` models a raised `json.JSONDecodeError`); `now` is the
`datetime.now().strftime(...)` timestamp; `renameOk` models whether the
best-effort `os.rename` of a corrupted file succeeds (its failure is caught
and ignored). Every branch returns a value: all exceptions are caught. -/
def load_json_file (parse : String → Option Registry) (file_path now : String)
    (renameOk : Bool) : RegFile → Registry × FsEffect
  | .absent => ([], .noEffect)
  | .file content readOk =>
    if readOk = false then ([], .noEffect)
    else if (pyStrip content) = "" then ([], .noEffect)
    else
      match parse (pyStrip content) with
      | some data => (data, .noEffect)
      | none =>
        ([], if renameOk then
               .renamedTo (file_path ++ ".corrupted_" ++ now)
             else .noEffect)

/-!
## Account Directory (`AccountManager`, `tStyle.py`)
-/

/-- The id-search loop of `create_new_account`
(`account_id = 1; while str(account_id) in accounts: account_id += 1`),
with explicit fuel; `keys.length + 1` steps always reach a free id. -/
def findFreeId (keys : List String) : Nat → Nat → Nat
  | 0, id => id
  | fuel + 1, id =>
    if str_of_nat id ∈ keys then findFreeId keys fuel (id + 1) else id

/-- The account id `create_new_account` assigns for a registry with the given
key set: the loop above started at 1. -/
def nextAccountId (keys : List String) : Nat :=
  findFreeId keys (keys.length + 1) 1

/-- `AccountManager.create_new_account(account_name, initial_balance)`.
`saveRegistryOk`/`saveBalanceOk` model the two persistence steps
(`save_accounts_list` and `save_balance_to_file`); `now` is the creation
timestamp. `Except.error` models the raised-and-reported exception; on the
balance-file failure the code also re-saves the registry without the new
entry (best-effort rollback) before raising. On success, returns the new id,
its record, and the updated registry mapping. -/
def create_new_account (saveRegistryOk saveBalanceOk : Bool) (now : String)
    (accounts : Registry) (account_name : String) (initial_balance : ℚ) :
    Except String (Nat × AccountInfo × Registry) :=
  if (pyStrip account_name) = "" then .error "Account name cannot be empty"
  else if initial_balance < 0 then .error "Initial balance cannot be negative"
  else
    let account_id := nextAccountId (registryKeys accounts)
    let account_info : AccountInfo :=
      { id := account_id, name := (pyStrip account_name), created := now,
        balance := initial_balance }
    if saveRegistryOk = false then .error "Failed to save account registry"
    else if saveBalanceOk = false then .error "Failed to create balance file"
    else .ok (account_id, account_info,
              accounts ++ [(str_of_nat account_id, account_info)])

/-- The characters rejected by `validate_account_name` (`tStyle.py`). -/
def invalid_chars : List Char := ['<', '>', '/', '\\', '|', ':', '*', '?', '\"']

/-- `validate_account_name(name)` (`tStyle.py`): returns a validity flag and
a message. Note that `AccountManager.create_new_account` does not call it. -/
def validate_account_name (name : String) : Bool × String :=
  if (pyStrip name) = "" then (false, "Account name cannot be empty")
  else if (pyStrip name).length < 2 then
    (false, "Account name must be at least 2 characters")
  else if (pyStrip name).length > 50 then
    (false, "Account name cannot exceed 50 characters")
  else if invalid_chars.any (fun c => (pyStrip name).data.contains c) then
    (false, "Account name contains invalid characters")
  else (true, "Valid account name")

/-!
## Account Entity (`BankAccount`, `tStyle.py`)
-/

/-- The runtime account entity: its id and last-loaded in-memory balance. -/
structure BankAccount where
  account_id : Nat
  balance : ℚ
deriving DecidableEq

/-- `BankAccount.get_balance()`: `float(self.balance)`. -/
def BankAccount.get_balance (acct : BankAccount) : ℚ := acct.balance

/-- `BankAccount.save_balance()`: delegates to the store's
`save_balance_to_file` with the current in-memory balance. -/
def BankAccount.save_balance (acct : BankAccount) (ioOk : Bool) : Bool :=
  save_balance_to_file ioOk acct.balance

/-- The `(success, message)` messages `deposit`/`withdraw` can return, with
the balance a formatted message interpolates carried as a payload:
`depositSuccess b` / `withdrawSuccess b` render the new balance,
`insufficientFunds b` is "Insufficient funds. Available: R<b>",
`saveFailed` is "Failed to save transaction to file",
`invalidAmountFormat` is "Invalid amount format". -/
inductive TxMsg where
  | depositSuccess (newBalance : ℚ)
  | withdrawSuccess (newBalance : ℚ)
  | depositMustBePositive
  | withdrawMustBePositive
  | insufficientFunds (available : ℚ)
  | saveFailed
  | invalidAmountFormat
deriving DecidableEq

/-- `BankAccount.deposit(amount)`: coerce with `float()`, reject non-positive
amounts, add to the in-memory balance, persist, and roll the in-memory
balance back if the save reports failure. Returns the resulting entity state
and the `(success, message)` pair. -/
def BankAccount.deposit (acct : BankAccount) (ioOk : Bool) (v : PyVal) :
    BankAccount × Bool × TxMsg :=
  match pyFloat v with
  | none => (acct, false, .invalidAmountFormat)
  | some amount =>
    if amount ≤ 0 then (acct, false, .depositMustBePositive)
    else
      let newBalance := acct.balance + amount
      if save_balance_to_file ioOk newBalance then
        ({ acct with balance := newBalance }, true, .depositSuccess newBalance)
      else (acct, false, .saveFailed)

/-- `BankAccount.withdraw(amount)`: like `deposit`, with the additional
insufficient-funds check `amount > self.balance` whose failure message
reports the available balance. -/
def BankAccount.withdraw (acct : BankAccount) (ioOk : Bool) (v : PyVal) :
    BankAccount × Bool × TxMsg :=
  match pyFloat v with
  | none => (acct, false, .invalidAmountFormat)
  | some amount =>
    if amount ≤ 0 then (acct, false, .withdrawMustBePositive)
    else if acct.balance < amount then
      (acct, false, .insufficientFunds acct.balance)
    else
      let newBalance := acct.balance - amount
      if save_balance_to_file ioOk newBalance then
        ({ acct with balance := newBalance }, true, .withdrawSuccess newBalance)
      else (acct, false, .saveFailed)

/-- One call against the entity, with the amount argument and the success of
the underlying file write for that call. -/
inductive Op where
  | deposit (ioOk : Bool) (v : PyVal)
  | withdraw (ioOk : Bool) (v : PyVal)
deriving DecidableEq

/-- Apply one call, keeping the resulting entity state. -/
def applyOp (acct : BankAccount) : Op → BankAccount
  | .deposit ioOk v => (acct.deposit ioOk v).1
  | .withdraw ioOk v => (acct.withdraw ioOk v).1

/-- Run a finite sequence of deposit/withdraw calls. -/
def runOps (acct : BankAccount) : List Op → BankAccount
  | [] => acct
  | op :: rest => runOps (applyOp acct op) rest

/-!
## Lemmas about decimal rendering and id assignment
-/

lemma valLE_natDigitsRev : ∀ fuel n, n ≤ fuel → valLE (natDigitsRev fuel n) = n := by
  intro fuel
  induction fuel with
  | zero =>
    intro n hn
    interval_cases n
    rfl
  | succ fuel ih =>
    intro n hn
    match n with
    | 0 => rfl
    | m + 1 =>
      have hdiv : (m + 1) / 10 ≤ fuel := by
        have h1 : (m + 1) / 10 < m + 1 := Nat.div_lt_self (Nat.succ_pos m) (by omega)
        omega
      simp only [natDigitsRev, valLE, ih _ hdiv]
      omega

lemma natDigitsRev_lt_ten : ∀ fuel n d, d ∈ natDigitsRev fuel n → d < 10 := by
  intro fuel
  induction fuel with
  | zero => intro n d hd; simp [natDigitsRev] at hd
  | succ fuel ih =>
    intro n d hd
    match n with
    | 0 => simp [natDigitsRev] at hd
    | m + 1 =>
      simp only [natDigitsRev, List.mem_cons] at hd
      rcases hd with h | h
      · subst h
        exact Nat.mod_lt _ (by omega)
      · exact ih _ _ h

lemma digitVal_digitChar (d : Nat) (h : d < 10) : digitVal (digitChar d) = d := by
  interval_cases d <;> rfl

lemma map_digitVal_map_digitChar (ds : List Nat) (h : ∀ d ∈ ds, d < 10) :
    (ds.map digitChar).map digitVal = ds := by
  induction ds with
  | nil => rfl
  | cons d ds ih =>
    simp only [List.map_cons, List.cons.injEq]
    exact ⟨digitVal_digitChar d (h d (List.mem_cons_self d ds)),
           ih fun x hx => h x (List.mem_cons_of_mem d hx)⟩

lemma strDecode_str_of_nat (n : Nat) : strDecode (str_of_nat n) = n := by
  unfold str_of_nat
  by_cases h0 : n = 0
  · simp [h0, strDecode]
    rfl
  · simp only [h0, if_false]
    unfold strDecode
    have hdata : (((natDigitsRev n n).map digitChar).reverse.asString).data
        = ((natDigitsRev n n).map digitChar).reverse := rfl
    rw [hdata, ← List.map_reverse, List.reverse_reverse,
        map_digitVal_map_digitChar _ (fun d hd => natDigitsRev_lt_ten n n d hd)]
    exact valLE_natDigitsRev n n le_rfl

lemma str_of_nat_injective : Function.Injective str_of_nat :=
  Function.LeftInverse.injective strDecode_str_of_nat

lemma exists_free_id (keys : List String) :
    ∃ k, k ≤ keys.length ∧ str_of_nat (1 + k) ∉ keys := by
  by_contra hall
  push_neg at hall
  have hmem : ∀ i : Fin (keys.length + 1),
      str_of_nat (1 + (i : Nat)) ∈ keys.toFinset := by
    intro i
    exact List.mem_toFinset.mpr (hall i (Nat.lt_succ_iff.mp i.isLt))
  have hinj : Set.InjOn (fun i : Fin (keys.length + 1) => str_of_nat (1 + (i : Nat)))
      (Finset.univ : Finset (Fin (keys.length + 1))) := by
    intro i _ j _ hij
    have := str_of_nat_injective hij
    omega
  have hcard := Finset.card_le_card_of_injOn
    (fun i : Fin (keys.length + 1) => str_of_nat (1 + (i : Nat)))
    (fun i _ => hmem i) hinj
  simp only [Finset.card_univ, Fintype.card_fin] at hcard
  have := List.toFinset_card_le keys
  omega

lemma findFreeId_spec (keys : List String) :
    ∀ fuel start, (∃ k, k < fuel ∧ str_of_nat (start + k) ∉ keys) →
      str_of_nat (findFreeId keys fuel start) ∉ keys
      ∧ start ≤ findFreeId keys fuel start
      ∧ ∀ m, start ≤ m → m < findFreeId keys fuel start → str_of_nat m ∈ keys := by
  intro fuel
  induction fuel with
  | zero =>
    intro start h
    obtain ⟨k, hk, _⟩ := h
    omega
  | succ fuel ih =>
    intro start h
    by_cases hs : str_of_nat start ∈ keys
    · have hex : ∃ k, k < fuel ∧ str_of_nat (start + 1 + k) ∉ keys := by
        obtain ⟨k, hk, hfree⟩ := h
        match k with
        | 0 => exact absurd hfree (by simpa using hs)
        | k + 1 => exact ⟨k, by omega, by have : start + 1 + k = start + (k + 1) := by omega
                                          rw [this]; exact hfree⟩
      have hrec := ih (start + 1) hex
      simp only [findFreeId, hs, if_true]
      refine ⟨hrec.1, by omega, ?_⟩
      intro m hm1 hm2
      rcases Nat.eq_or_lt_of_le hm1 with heq | hlt
      · rw [← heq]; exact hs
      · exact hrec.2.2 m hlt hm2
    · have heq : findFreeId keys (fuel + 1) start = start := by
        simp [findFreeId, hs]
      rw [heq]
      exact ⟨hs, le_rfl, fun m hm1 hm2 => absurd (lt_of_le_of_lt hm1 hm2) (lt_irrefl start)⟩

lemma nextAccountId_spec (keys : List String) :
    str_of_nat (nextAccountId keys) ∉ keys
    ∧ 1 ≤ nextAccountId keys
    ∧ ∀ m, 1 ≤ m → m < nextAccountId keys → str_of_nat m ∈ keys := by
  have hex : ∃ k, k < keys.length + 1 ∧ str_of_nat (1 + k) ∉ keys := by
    obtain ⟨k, hk, hfree⟩ := exists_free_id keys
    exact ⟨k, by omega, hfree⟩
  exact findFreeId_spec keys (keys.length + 1) 1 hex

/-!
## Lemmas about the Account Entity
-/

lemma deposit_balance_nonneg (acct : BankAccount) (ioOk : Bool) (v : PyVal)
    (h : 0 ≤ acct.balance) : 0 ≤ ((acct.deposit ioOk v).1).balance := by
  unfold BankAccount.deposit
  cases hv : pyFloat v with
  | none => simpa using h
  | some a =>
    by_cases ha : a ≤ 0
    · simpa [ha] using h
    · by_cases hs : save_balance_to_file ioOk (acct.balance + a) = true
      · simp only [ha, if_false, hs, if_true]
        have : 0 < a := lt_of_not_le ha
        linarith
      · simpa [ha, hs] using h

lemma withdraw_balance_nonneg (acct : BankAccount) (ioOk : Bool) (v : PyVal)
    (h : 0 ≤ acct.balance) : 0 ≤ ((acct.withdraw ioOk v).1).balance := by
  unfold BankAccount.withdraw
  cases hv : pyFloat v with
  | none => simpa using h
  | some a =>
    by_cases ha : a ≤ 0
    · simpa [ha] using h
    · by_cases hlt : acct.balance < a
      · simpa [ha, hlt] using h
      · by_cases hs : save_balance_to_file ioOk (acct.balance - a) = true
        · simp only [ha, if_false, hlt, hs, if_true]
          linarith [not_lt.mp hlt]
        · simpa [ha, hlt, hs] using h

lemma applyOp_balance_nonneg (acct : BankAccount) (op : Op)
    (h : 0 ≤ acct.balance) : 0 ≤ (applyOp acct op).balance := by
  cases op with
  | deposit ioOk v => exact deposit_balance_nonneg acct ioOk v h
  | withdraw ioOk v => exact withdraw_balance_nonneg acct ioOk v h

lemma runOps_balance_nonneg (ops : List Op) :
    ∀ acct : BankAccount, 0 ≤ acct.balance → 0 ≤ (runOps acct ops).balance := by
  induction ops with
  | nil => intro acct h; simpa [runOps] using h
  | cons op rest ih =>
    intro acct h
    simpa [runOps] using ih (applyOp acct op) (applyOp_balance_nonneg acct op h)

lemma withdraw_pos_success (acct : BankAccount) (a : ℚ) (h1 : 0 < a)
    (h2 : a ≤ acct.balance) :
    acct.withdraw true (.num a) =
      ({ acct with balance := acct.balance - a }, true,
       .withdrawSuccess (acct.balance - a)) := by
  unfold BankAccount.withdraw
  have hnle : ¬ a ≤ 0 := not_le.mpr h1
  have hnlt : ¬ acct.balance < a := not_lt.mpr h2
  have hsave : save_balance_to_file true (acct.balance - a) = true := by
    unfold save_balance_to_file
    have : ¬ acct.balance - a < 0 := by linarith
    simp [this]
  simp [pyFloat, hnle, hnlt, hsave]

lemma deposit_pos_success (acct : BankAccount) (a : ℚ) (h1 : 0 < a)
    (h0 : 0 ≤ acct.balance) :
    acct.deposit true (.num a) =
      ({ acct with balance := acct.balance + a }, true,
       .depositSuccess (acct.balance + a)) := by
  unfold BankAccount.deposit
  have hnle : ¬ a ≤ 0 := not_le.mpr h1
  have hsave : save_balance_to_file true (acct.balance + a) = true := by
    unfold save_balance_to_file
    have : ¬ acct.balance + a < 0 := by linarith
    simp [this]
  simp [pyFloat, hnle, hsave]

/-!
## Claims about the Account Entity
-/

/-- C1: starting from a non-negative in-memory balance, `get_balance()` stays
non-negative after any finite sequence of `deposit`/`withdraw` calls with any
arguments and any persistence outcomes; moreover a non-positive deposit is
rejected unchanged, and a withdrawal exceeding the balance is rejected with
an insufficient-funds message (not clamped to zero). -/
theorem C1_balance_invariant (acct : BankAccount) (h : 0 ≤ acct.balance) :
    (∀ ops : List Op, 0 ≤ (runOps acct ops).get_balance)
    ∧ (∀ (ioOk : Bool) (a : ℚ), a ≤ 0 →
        acct.deposit ioOk (.num a) = (acct, false, .depositMustBePositive))
    ∧ (∀ (ioOk : Bool) (a : ℚ), 0 < a → acct.balance < a →
        acct.withdraw ioOk (.num a) = (acct, false, .insufficientFunds acct.balance)) := by
  refine ⟨fun ops => runOps_balance_nonneg ops acct h, ?_, ?_⟩
  · intro ioOk a ha
    unfold BankAccount.deposit
    simp [pyFloat, ha]
  · intro ioOk a ha hlt
    unfold BankAccount.withdraw
    simp [pyFloat, not_le.mpr ha, hlt]

/-- C1 witness at a concrete entity. -/
theorem C1_balance_invariant_witness :
    0 ≤ (⟨1, 0⟩ : BankAccount).balance
    ∧ ((∀ ops : List Op, 0 ≤ (runOps ⟨1, 0⟩ ops).get_balance)
      ∧ (∀ (ioOk : Bool) (a : ℚ), a ≤ 0 →
          BankAccount.deposit ⟨1, 0⟩ ioOk (.num a) = (⟨1, 0⟩, false, .depositMustBePositive))
      ∧ (∀ (ioOk : Bool) (a : ℚ), 0 < a → (⟨1, 0⟩ : BankAccount).balance < a →
          BankAccount.withdraw ⟨1, 0⟩ ioOk (.num a)
            = (⟨1, 0⟩, false, .insufficientFunds (⟨1, 0⟩ : BankAccount).balance))) :=
  ⟨by decide, C1_balance_invariant ⟨1, 0⟩ (by decide)⟩

/-- C2: a withdrawal of a positive amount exceeding the balance fails with an
insufficient-funds message reporting the available balance and leaves the
in-memory balance unchanged. -/
theorem C2_insufficient_funds (acct : BankAccount) (ioOk : Bool) (a : ℚ)
    (h1 : 0 < a) (h2 : acct.balance < a) :
    acct.withdraw ioOk (.num a) = (acct, false, .insufficientFunds acct.balance) := by
  unfold BankAccount.withdraw
  simp [pyFloat, not_le.mpr h1, h2]

/-- C2 witness: `withdraw(100)` on balance `50` fails reporting `50` and the
balance stays `50`. -/
theorem C2_insufficient_funds_witness :
    0 < (100 : ℚ) ∧ (⟨1, 50⟩ : BankAccount).balance < 100
    ∧ BankAccount.withdraw ⟨1, 50⟩ true (.num 100)
        = (⟨1, 50⟩, false, .insufficientFunds (⟨1, 50⟩ : BankAccount).balance) :=
  ⟨by decide, by decide, C2_insufficient_funds ⟨1, 50⟩ true 100 (by decide) (by decide)⟩

/-- C3: when the store's save reports failure during a positive-amount
`deposit` (or an in-funds `withdraw`), the operation returns failure and the
entity state is exactly the pre-operation state (in-memory rollback). -/
theorem C3_rollback_on_save_failure (acct : BankAccount) (a : ℚ) (ioOk : Bool)
    (ha : 0 < a) :
    (save_balance_to_file ioOk (acct.balance + a) = false →
       acct.deposit ioOk (.num a) = (acct, false, .saveFailed))
    ∧ (a ≤ acct.balance → save_balance_to_file ioOk (acct.balance - a) = false →
       acct.withdraw ioOk (.num a) = (acct, false, .saveFailed)) := by
  constructor
  · intro hs
    unfold BankAccount.deposit
    simp [pyFloat, not_le.mpr ha, hs]
  · intro hle hs
    unfold BankAccount.withdraw
    simp [pyFloat, not_le.mpr ha, not_lt.mpr hle, hs]

/-- C3 witness: balance 10, amount 5, failing write. -/
theorem C3_rollback_on_save_failure_witness :
    0 < (5 : ℚ)
    ∧ ((save_balance_to_file false ((⟨1, 10⟩ : BankAccount).balance + 5) = false →
         BankAccount.deposit ⟨1, 10⟩ false (.num 5) = (⟨1, 10⟩, false, .saveFailed))
      ∧ ((5 : ℚ) ≤ (⟨1, 10⟩ : BankAccount).balance →
         save_balance_to_file false ((⟨1, 10⟩ : BankAccount).balance - 5) = false →
         BankAccount.withdraw ⟨1, 10⟩ false (.num 5) = (⟨1, 10⟩, false, .saveFailed))) :=
  ⟨by decide, C3_rollback_on_save_failure ⟨1, 10⟩ 5 false (by decide)⟩

/-- C6: for `0 < a ≤ balance`, `withdraw(a)` then `deposit(a)` with both
writes succeeding restores the balance exactly (and both calls succeed). -/
theorem C6_withdraw_deposit_roundtrip (acct : BankAccount) (a : ℚ)
    (h1 : 0 < a) (h2 : a ≤ acct.balance) :
    (acct.withdraw true (.num a)).2.1 = true
    ∧ ((acct.withdraw true (.num a)).1.deposit true (.num a)).2.1 = true
    ∧ ((acct.withdraw true (.num a)).1.deposit true (.num a)).1.balance
        = acct.balance := by
  have hw := withdraw_pos_success acct a h1 h2
  have h0 : (0 : ℚ) ≤ acct.balance - a := by linarith
  have hd := deposit_pos_success ⟨acct.account_id, acct.balance - a⟩ a h1 h0
  refine ⟨by rw [hw], ?_, ?_⟩
  · rw [hw]
    dsimp only
    rw [hd]
  · rw [hw]
    dsimp only
    rw [hd]
    dsimp only
    ring

/-- C6 witness: balance 50, amount 30. -/
theorem C6_withdraw_deposit_roundtrip_witness :
    0 < (30 : ℚ) ∧ (30 : ℚ) ≤ (⟨1, 50⟩ : BankAccount).balance
    ∧ ((BankAccount.withdraw ⟨1, 50⟩ true (.num 30)).2.1 = true
      ∧ ((BankAccount.withdraw ⟨1, 50⟩ true (.num 30)).1.deposit true (.num 30)).2.1 = true
      ∧ ((BankAccount.withdraw ⟨1, 50⟩ true (.num 30)).1.deposit true (.num 30)).1.balance
          = (⟨1, 50⟩ : BankAccount).balance) :=
  ⟨by decide, by decide, C6_withdraw_deposit_roundtrip ⟨1, 50⟩ 30 (by decide) (by decide)⟩

/-- C10: `deposit`/`withdraw` coerce their argument with `float()`: a
non-coercible argument yields the failure message "Invalid amount format"
(no exception escapes), the string `"50"` coerces to the number 50, and any
string that coerces behaves exactly like the number it coerces to. -/
theorem C10_float_coercion (acct : BankAccount) (ioOk : Bool) :
    (∀ v, pyFloat v = none →
        acct.deposit ioOk v = (acct, false, .invalidAmountFormat)
        ∧ acct.withdraw ioOk v = (acct, false, .invalidAmountFormat))
    ∧ pyFloat (.str "50") = some 50
    ∧ (∀ s q, pyFloat (.str s) = some q →
        acct.deposit ioOk (.str s) = acct.deposit ioOk (.num q)
        ∧ acct.withdraw ioOk (.str s) = acct.withdraw ioOk (.num q)) := by
  refine ⟨?_, by decide, ?_⟩
  · intro v hv
    constructor
    · unfold BankAccount.deposit
      rw [hv]
    · unfold BankAccount.withdraw
      rw [hv]
  · intro s q hq
    constructor
    · unfold BankAccount.deposit
      rw [hq]
      rfl
    · unfold BankAccount.withdraw
      rw [hq]
      rfl

/-- C10 witness: a non-coercible value and the string `"50"`. -/
theorem C10_float_coercion_witness :
    (pyFloat .nonCoercible = none
      ∧ BankAccount.deposit ⟨1, 0⟩ true .nonCoercible = (⟨1, 0⟩, false, .invalidAmountFormat)
      ∧ BankAccount.withdraw ⟨1, 0⟩ true .nonCoercible = (⟨1, 0⟩, false, .invalidAmountFormat))
    ∧ (pyFloat (.str "50") = some 50)
    ∧ (pyFloat (.str "50") = some 50
      ∧ BankAccount.deposit ⟨1, 0⟩ true (.str "50") = BankAccount.deposit ⟨1, 0⟩ true (.num 50)
      ∧ BankAccount.withdraw ⟨1, 0⟩ true (.str "50") = BankAccount.withdraw ⟨1, 0⟩ true (.num 50)) :=
  ⟨⟨rfl, ((C10_float_coercion ⟨1, 0⟩ true).1 .nonCoercible rfl).1,
        ((C10_float_coercion ⟨1, 0⟩ true).1 .nonCoercible rfl).2⟩,
   (C10_float_coercion ⟨1, 0⟩ true).2.1,
   ⟨by decide, ((C10_float_coercion ⟨1, 0⟩ true).2.2 "50" 50 (by decide)).1,
        ((C10_float_coercion ⟨1, 0⟩ true).2.2 "50" 50 (by decide)).2⟩⟩

/-!
## Claims about the Account Directory
-/

/-- C4: with valid inputs and successful persistence, `create_new_account`
assigns the smallest positive integer whose decimal string is not yet a
registry key (and appends the record under that key); concretely, the first
two creations on an empty registry get ids 1 then 2, and a registry holding
only ids 2 and 3 gets id 1. -/
theorem C4_smallest_unused_id (accounts : Registry) (name : String) (bal : ℚ)
    (now : String) (hname : pyStrip name ≠ "") (hbal : 0 ≤ bal) :
    (create_new_account true true now accounts name bal
       = .ok (nextAccountId (registryKeys accounts),
              ⟨nextAccountId (registryKeys accounts), pyStrip name, now, bal⟩,
              accounts ++ [(str_of_nat (nextAccountId (registryKeys accounts)),
                            ⟨nextAccountId (registryKeys accounts), pyStrip name, now, bal⟩)]))
    ∧ str_of_nat (nextAccountId (registryKeys accounts)) ∉ registryKeys accounts
    ∧ 1 ≤ nextAccountId (registryKeys accounts)
    ∧ (∀ m, 1 ≤ m → m < nextAccountId (registryKeys accounts) →
        str_of_nat m ∈ registryKeys accounts)
    ∧ create_new_account true true "t1" [] "Alice" 5
        = .ok (1, ⟨1, "Alice", "t1", 5⟩, [("1", ⟨1, "Alice", "t1", 5⟩)])
    ∧ create_new_account true true "t2" [("1", ⟨1, "Alice", "t1", 5⟩)] "Bob" 5
        = .ok (2, ⟨2, "Bob", "t2", 5⟩,
               [("1", ⟨1, "Alice", "t1", 5⟩), ("2", ⟨2, "Bob", "t2", 5⟩)])
    ∧ create_new_account true true "t3" [("2", ⟨2, "Bob", "t", 0⟩), ("3", ⟨3, "Cara", "t", 0⟩)] "Dana" 5
        = .ok (1, ⟨1, "Dana", "t3", 5⟩,
               [("2", ⟨2, "Bob", "t", 0⟩), ("3", ⟨3, "Cara", "t", 0⟩), ("1", ⟨1, "Dana", "t3", 5⟩)]) := by
  have hspec := nextAccountId_spec (registryKeys accounts)
  refine ⟨?_, hspec.1, hspec.2.1, hspec.2.2, rfl, rfl, rfl⟩
  unfold create_new_account
  simp [hname, not_lt.mpr hbal]

/-- C4 witness at a concrete registry and name. -/
theorem C4_smallest_unused_id_witness :
    pyStrip "Eve" ≠ "" ∧ (0 : ℚ) ≤ 5
    ∧ (create_new_account true true "t" [("1", ⟨1, "Alice", "t1", 5⟩)] "Eve" 5
        = .ok (nextAccountId (registryKeys [("1", ⟨1, "Alice", "t1", 5⟩)]),
               ⟨nextAccountId (registryKeys [("1", ⟨1, "Alice", "t1", 5⟩)]), pyStrip "Eve", "t", 5⟩,
               [("1", ⟨1, "Alice", "t1", 5⟩)]
                 ++ [(str_of_nat (nextAccountId (registryKeys [("1", ⟨1, "Alice", "t1", 5⟩)])),
                      ⟨nextAccountId (registryKeys [("1", ⟨1, "Alice", "t1", 5⟩)]), pyStrip "Eve", "t", 5⟩)])) :=
  ⟨by decide, by decide,
   (C4_smallest_unused_id [("1", ⟨1, "Alice", "t1", 5⟩)] "Eve" 5 "t" (by decide) (by decide)).1⟩

/-- C5 counterexample: `create_new_account` accepts the one-character name
`"A"`, which `validate_account_name` rejects — creation does not enforce the
2–50-character / forbidden-character rule. -/
theorem C5_counterexample :
    (create_new_account true true "2024-01-01 00:00:00" [] "A" 0).isOk = true
    ∧ (validate_account_name "A").1 = false := by
  exact ⟨rfl, rfl⟩

/-- C5 (amended): the standalone `validate_account_name` accepts exactly the
names whose stripped form has 2–50 characters and none of the characters
`< > / \ | : * ? "`, but account creation does not invoke it:
`create_new_account` succeeds (given a non-negative initial balance and
successful persistence) exactly when the stripped name is non-empty. -/
theorem C5_name_validation (name : String) (accounts : Registry) (bal : ℚ)
    (now : String) (hbal : 0 ≤ bal) :
    ((validate_account_name name).1 = true ↔
      (2 ≤ (pyStrip name).length ∧ (pyStrip name).length ≤ 50
       ∧ ∀ c ∈ invalid_chars, (pyStrip name).data.contains c = false))
    ∧ ((create_new_account true true now accounts name bal).isOk = true
        ↔ pyStrip name ≠ "") := by
  constructor
  · unfold validate_account_name
    split_ifs with h0 h1 h2 h3
    · constructor
      · intro h; exact h.elim
      · intro h
        rw [h0] at h
        exact absurd h.1 (by decide)
    · constructor
      · intro h; exact h.elim
      · intro h; exact absurd h.1 (by omega)
    · constructor
      · intro h; exact h.elim
      · intro h; exact absurd h.2.1 (by omega)
    · constructor
      · intro h; exact h.elim
      · intro h
        rw [List.any_eq_true] at h3
        obtain ⟨c, hc, hcc⟩ := h3
        have hfalse := h.2.2 c hc
        rw [hfalse] at hcc
        exact Bool.noConfusion hcc
    · constructor
      · intro _
        refine ⟨by omega, by omega, ?_⟩
        intro c hc
        by_contra hcc
        exact h3 (List.any_eq_true.mpr ⟨c, hc, by simpa using hcc⟩)
      · intro _; rfl
  · unfold create_new_account
    by_cases h0 : pyStrip name = ""
    · rw [if_pos h0]
      simp only [ne_eq, h0, not_true_eq_false, iff_false]
      intro h
      exact Bool.noConfusion h
    · rw [if_neg h0, if_neg (not_lt.mpr hbal)]
      simp only [ne_eq, h0, not_false_eq_true, iff_true]
      rfl

/-- C5 witness: a concrete valid name. -/
theorem C5_name_validation_witness :
    (0 : ℚ) ≤ 0
    ∧ (((validate_account_name "Bob").1 = true ↔
        (2 ≤ (pyStrip "Bob").length ∧ (pyStrip "Bob").length ≤ 50
         ∧ ∀ c ∈ invalid_chars, (pyStrip "Bob").data.contains c = false))
      ∧ ((create_new_account true true "t" [] "Bob" 0).isOk = true
          ↔ pyStrip "Bob" ≠ "")) :=
  ⟨by decide, C5_name_validation "Bob" [] 0 "t" (by decide)⟩

/-!
## Claims about the Persistent Store
-/

/-- C7: `load_json_file` returns the empty mapping whenever the registry file
is absent, unreadable, blank, or fails JSON parsing; in the parse-failure
case it (best-effort) renames the file aside to `<path>.corrupted_<timestamp>`
first. Every case returns a value — no exception reaches the caller. -/
theorem C7_corrupt_registry_recovery (parse : String → Option Registry)
    (path now : String) (renameOk : Bool) :
    (load_json_file parse path now renameOk .absent = ([], .noEffect))
    ∧ (∀ content readOk, parse (pyStrip content) = none →
        (load_json_file parse path now renameOk (.file content readOk)).1 = [])
    ∧ (∀ content, pyStrip content ≠ "" → parse (pyStrip content) = none →
        load_json_file parse path now renameOk (.file content true)
          = ([], if renameOk then FsEffect.renamedTo (path ++ ".corrupted_" ++ now)
                 else FsEffect.noEffect)) := by
  refine ⟨rfl, ?_, ?_⟩
  · intro content readOk hp
    unfold load_json_file
    cases readOk
    · simp
    · by_cases he : pyStrip content = ""
      · simp [he]
      · simp [he, hp]
  · intro content hne hp
    unfold load_json_file
    simp [hne, hp]

/-- C7 witness: a concrete corrupt registry file, with `json.loads` failing. -/
theorem C7_corrupt_registry_recovery_witness :
    ((fun _ : String => (none : Option Registry)) (pyStrip "oops") = none
      ∧ pyStrip "oops" ≠ "")
    ∧ load_json_file (fun _ => none) "accounts_registry.json" "20240101_000000" true
        (.file "oops" true)
        = ([], .renamedTo "accounts_registry.json.corrupted_20240101_000000") :=
  ⟨⟨rfl, by decide⟩,
   (C7_corrupt_registry_recovery (fun _ => none) "accounts_registry.json"
      "20240101_000000" true).2.2 "oops" (by decide) rfl⟩

/-- C8: loading a balance file that exists but whose content strips to the
empty string behaves like loading an absent file: it returns the default and
(when the write can go through) stores the default into the file. -/
theorem C8_empty_balance_file_like_absent (content : String)
    (default_balance : ℚ) (saveOk : Bool) (h : pyStrip content = "") :
    (load_balance_from_file true saveOk (.raw content) default_balance).1 = default_balance
    ∧ (load_balance_from_file true saveOk .absent default_balance).1 = default_balance
    ∧ (0 ≤ default_balance → saveOk = true →
        load_balance_from_file true saveOk (.raw content) default_balance
          = (default_balance, .stored default_balance)
        ∧ load_balance_from_file true saveOk .absent default_balance
          = (default_balance, .stored default_balance)) := by
  refine ⟨?_, ?_, ?_⟩
  · unfold load_balance_from_file
    by_cases hs : save_balance_to_file saveOk default_balance = true <;> simp [h, hs]
  · unfold load_balance_from_file
    by_cases hs : save_balance_to_file saveOk default_balance = true <;> simp [hs]
  · intro hd hso
    have hs : save_balance_to_file saveOk default_balance = true := by
      unfold save_balance_to_file
      simp [not_lt.mpr hd, hso]
    constructor
    · unfold load_balance_from_file
      simp [h, hs]
    · unfold load_balance_from_file
      simp [hs]

/-- C8 witness: a whitespace-only balance file. -/
theorem C8_empty_balance_file_like_absent_witness :
    pyStrip "  " = ""
    ∧ ((load_balance_from_file true true (.raw "  ") 1000000).1 = 1000000
      ∧ (load_balance_from_file true true .absent 1000000).1 = 1000000
      ∧ ((0 : ℚ) ≤ 1000000 → true = true →
          load_balance_from_file true true (.raw "  ") 1000000
            = (1000000, .stored 1000000)
          ∧ load_balance_from_file true true .absent 1000000
            = (1000000, .stored 1000000))) :=
  ⟨by decide, C8_empty_balance_file_like_absent "  " 1000000 true (by decide)⟩

/-- C9: loading a balance file whose content parses to a negative number
returns the default and performs no write — the file keeps its negative
content, so a subsequent load returns the default again. -/
theorem C9_negative_balance_not_repaired (content : String)
    (q default_balance : ℚ) (saveOk : Bool)
    (hp : pyFloatOfString (pyStrip content) = some q) (hneg : q < 0) :
    load_balance_from_file true saveOk (.raw content) default_balance
      = (default_balance, .raw content)
    ∧ (load_balance_from_file true saveOk
        ((load_balance_from_file true saveOk (.raw content) default_balance).2)
        default_balance).1 = default_balance := by
  have hne : pyStrip content ≠ "" := by
    intro h
    rw [h] at hp
    have hnone : pyFloatOfString "" = none := rfl
    rw [hnone] at hp
    exact Option.noConfusion hp
  have hmain : load_balance_from_file true saveOk (.raw content) default_balance
      = (default_balance, .raw content) := by
    unfold load_balance_from_file
    simp [hne, hp, not_le.mpr hneg]
  refine ⟨hmain, ?_⟩
  rw [hmain]
  show (load_balance_from_file true saveOk (.raw content) default_balance).1
      = default_balance
  rw [hmain]

/-- C9 witness: a balance file holding `-5`. -/
theorem C9_negative_balance_not_repaired_witness :
    pyFloatOfString (pyStrip "-5") = some (-5) ∧ (-5 : ℚ) < 0
    ∧ (load_balance_from_file true true (.raw "-5") 1000000
        = (1000000, .raw "-5")
      ∧ (load_balance_from_file true true
          ((load_balance_from_file true true (.raw "-5") 1000000).2) 1000000).1
         = 1000000) :=
  ⟨by decide, by decide,
   C9_negative_balance_not_repaired "-5" (-5) 1000000 true (by decide) (by decide)⟩

end Billing
